import Mathlib

/-!
Verification of the launch-geometry planner and sampling facade of
`gpustats/sampler.py` (functions `sample_discrete`, `sample_discrete_old`,
`_tune_sfm`).

Conventions of the embedding:
* Python ints are `Nat` (all quantities involved are nonnegative sizes).
* The float constants `0.8`, `0.9`, `0.5` used by `_tune_sfm` are read with
  exact real-number semantics, embedded as the rationals `8/10`, `9/10`,
  `5/10`; `int(t * 0.5)` for a nonnegative machine integer `t` is exactly
  `t / 2` in truncating (`Nat`) division, since `t * 0.5` is exact in binary
  floating point.
* `int(a / b)` on Python nonnegative ints is `Nat` division.
-/

/-- Device capability descriptor, as read from `gpustats.util.info`
(`compute_cap`, `max_block_threads`, `shared_mem`, `max_registers`).
Only the major component of `compute_cap` is consulted by the source. -/
structure DeviceInfo where
  compute_cap_major : Nat
  max_block_threads : Nat
  shared_mem : Nat
  max_registers : Nat

/-! ## Fixed-block planner path (`sample_discrete`, sampler.py lines 56-67) -/

/-- sampler.py lines 56-59: `x_block_dim = 16` when
`info.max_block_threads < 1024`, else `32`. -/
def x_block_dim (info : DeviceInfo) : Nat :=
  if info.max_block_threads < 1024 then 16 else 32

/-- sampler.py line 61: `y_block_dim = 16`. -/
def y_block_dim : Nat := 16

/-- sampler.py line 63: `block_design = (x_block_dim, y_block_dim, 1)`. -/
def block_design (info : DeviceInfo) : Nat × Nat × Nat :=
  (x_block_dim info, y_block_dim, 1)

/-- sampler.py line 64: `grid_design = (int(n/y_block_dim) + 1, 1)`. -/
def grid_design (n : Nat) : Nat × Nat :=
  (n / y_block_dim + 1, 1)

/-- sampler.py lines 66-67: the local `shared_mem` of `sample_discrete`,
`4 * ((x_block_dim+1)*y_block_dim + 2*y_block_dim)`. -/
def shared_mem_request (info : DeviceInfo) : Nat :=
  4 * ((x_block_dim info + 1) * y_block_dim + 2 * y_block_dim)

/-! ## Adaptive planner path (`_tune_sfm`, sampler.py lines 155-189) -/

/-- sampler.py lines 171-174: `xdim = 16` when `comp_cap[0] == 1`, else `32`. -/
def sfm_xdim (info : DeviceInfo) : Nat :=
  if info.compute_cap_major = 1 then 16 else 32

/-- sampler.py lines 177-179, `sfm_config_ok`:
`ok = 4*(xdim*stride + 1*xdim) < max_smem and func_regs*ydim*xdim < max_regs;
return ok and xdim*ydim <= max_threads`.  The float bounds `max_regs` and
`max_smem` are carried as exact rationals. -/
def sfm_config_ok (xdim ydim stride func_regs : Nat)
    (max_regs max_smem : ℚ) (max_threads : Nat) : Bool :=
  (decide (((4 * (xdim * stride + 1 * xdim) : Nat) : ℚ) < max_smem) &&
    decide (((func_regs * ydim * xdim : Nat) : ℚ) < max_regs)) &&
  decide (xdim * ydim ≤ max_threads)

/-- Bounded unfolding of the `while sfm_config_ok(...): ydim += 1` loop of
sampler.py lines 181-183.  The explicit bound is only a recursion measure:
`sfm_search_eq` below proves that with the bound chosen in `sfm_search` this
function satisfies the while loop's defining equation, and the zero-fuel case
is never reached because the predicate fails for `ydim > max_threads`. -/
def sfm_search_aux (stride func_regs : Nat) (max_regs max_smem : ℚ)
    (max_threads xdim : Nat) : Nat → Nat → Nat
  | 0, ydim => ydim
  | fuel + 1, ydim =>
    if sfm_config_ok xdim ydim stride func_regs max_regs max_smem max_threads then
      sfm_search_aux stride func_regs max_regs max_smem max_threads xdim fuel (ydim + 1)
    else
      ydim

/-- The value of `ydim` at exit of the while loop of sampler.py lines 181-183,
started from a given initial `ydim`. -/
def sfm_search (stride func_regs : Nat) (max_regs max_smem : ℚ)
    (max_threads xdim ydim : Nat) : Nat :=
  sfm_search_aux stride func_regs max_regs max_smem max_threads xdim
    (max_threads + 1 - ydim) ydim

/-- sampler.py line 164: `max_smem = info.shared_mem * 0.8`. -/
def tune_max_smem (info : DeviceInfo) : ℚ :=
  (info.shared_mem : ℚ) * (8 / 10)

/-- sampler.py line 165: `max_threads = int(info.max_block_threads * 0.5)`. -/
def tune_max_threads (info : DeviceInfo) : Nat :=
  info.max_block_threads / 2

/-- sampler.py line 166: `max_regs = 0.9 * info.max_registers`. -/
def tune_max_regs (info : DeviceInfo) : ℚ :=
  9 / 10 * (info.max_registers : ℚ)

/-- sampler.py lines 155-189, `_tune_sfm(n, stride, func_regs)`:
runs the adaptive search and returns `(grid_design, block_design)` as
`((nblocks, 1), (xdim, ydim, 1))` with `ydim` the loop exit value minus one
and `nblocks = int(n/xdim) + 1`. -/
def _tune_sfm (info : DeviceInfo) (n stride func_regs : Nat) :
    (Nat × Nat) × (Nat × Nat × Nat) :=
  let max_smem : ℚ := tune_max_smem info
  let max_threads : Nat := tune_max_threads info
  let max_regs : ℚ := tune_max_regs info
  let xdim : Nat := sfm_xdim info
  let ydim : Nat :=
    sfm_search stride func_regs max_regs max_smem max_threads xdim 2 - 1
  let nblocks : Nat := n / xdim + 1
  ((nblocks, 1), (xdim, ydim, 1))

/-! ## Legacy facade details (`sample_discrete_old`, sampler.py lines 83-153) -/

/-- sampler.py lines 131-133: `stride = k; if stride % 2 == 0: stride += 1`. -/
def old_stride (k : Nat) : Nat :=
  if k % 2 = 0 then k + 1 else k

/-- sampler.py lines 140-141: the local `shared_mem` of `sample_discrete_old`,
`4 * (block_design[0] * stride + 1 * block_design[0])`. -/
def old_shared_mem (xdim stride : Nat) : Nat :=
  4 * (xdim * stride + 1 * xdim)

/-! ## Output buffer element types -/

/-- NumPy dtypes that appear in the two output-buffer allocations. -/
inductive NpDType where
  | int32
  | float32
deriving DecidableEq

/-- sampler.py line 53: `gpu_dest = gpu_empty(n, dtype=np.int32)`
in `sample_discrete`. -/
def gpu_dest_dtype : NpDType := NpDType.int32

/-- sampler.py line 130: `gpu_dest = gpu_empty(n, dtype=np.float32)`
in `sample_discrete_old`. -/
def gpu_dest_dtype_old : NpDType := NpDType.float32

/-! ## Control-flow traces of the facades

The two facades have the same shape: unpack `n, k = densities.shape`
(the only step that can abort before GPU work — a `ValueError` when the
array is not two-dimensional), allocate, launch the kernel, then
`gpu_random.gpudata.free()` and, unless `return_gpuarray`, copy out and
`gpu_dest.gpudata.free()`.  There is no validation of `n`, `k` or of the
density values, and no `try/finally`: if the launch raises, the frees on
lines 73 / 78 (resp. 147 / 152) are skipped and the exception propagates. -/

/-- What happened during one facade call. -/
structure CallTrace where
  preLaunchError : Bool
  launchAttempted : Bool
  randomFreed : Bool
  destFreed : Bool
  raised : Bool
deriving DecidableEq

/-- Control flow of `sample_discrete` (sampler.py lines 16-79) as a function
of the shape tuple of `densities`, whether the kernel launch succeeds, and
the `return_gpuarray` flag. -/
def sample_discrete_trace (shape : List Nat) (launchOk return_gpuarray : Bool) :
    CallTrace :=
  match shape with
  | [_, _] =>
    if launchOk then
      if return_gpuarray then
        { preLaunchError := false, launchAttempted := true, randomFreed := true,
          destFreed := false, raised := false }
      else
        { preLaunchError := false, launchAttempted := true, randomFreed := true,
          destFreed := true, raised := false }
    else
      { preLaunchError := false, launchAttempted := true, randomFreed := false,
        destFreed := false, raised := true }
  | _ =>
    { preLaunchError := true, launchAttempted := false, randomFreed := false,
      destFreed := false, raised := true }

/-- Control flow of `sample_discrete_old` (sampler.py lines 83-153); the
resource handling on lines 143-153 mirrors lines 69-79 exactly. -/
def sample_discrete_old_trace (shape : List Nat) (launchOk return_gpuarray : Bool) :
    CallTrace :=
  match shape with
  | [_, _] =>
    if launchOk then
      if return_gpuarray then
        { preLaunchError := false, launchAttempted := true, randomFreed := true,
          destFreed := false, raised := false }
      else
        { preLaunchError := false, launchAttempted := true, randomFreed := true,
          destFreed := true, raised := false }
    else
      { preLaunchError := false, launchAttempted := true, randomFreed := false,
        destFreed := false, raised := true }
  | _ =>
    { preLaunchError := true, launchAttempted := false, randomFreed := false,
      destFreed := false, raised := true }

/-! ## Spec-modelled kernel (for the randomness dependence of the facade)

The CUDA kernel body invoked on sampler.py line 69 is produced by
`gpustats.codegen` / `gpustats.kernels`, which are not part of this
repository slice; only its caller is.  The per-row algorithm is therefore
modelled from the spec. -/

/-- Modelled from the spec: the inverse-CDF scan of the kernel (spec section
4.2, steps 3-5) — walk the weights accumulating a running sum, return the
first index whose cumulative mass is at or above the target, falling back to
the last index when the scan exhausts the row. -/
def invCDFGo (target : ℚ) : ℚ → Nat → List ℚ → Nat
  | _, i, [] => i - 1
  | acc, i, w :: rest =>
    if target ≤ acc + w then i else invCDFGo target (acc + w) (i + 1) rest

/-- Modelled from the spec: one row's sampled index — smallest `i` whose
cumulative weight reaches `u * total` (spec section 4.2, linear scale). -/
def sampleRowIdx (weights : List ℚ) (u : ℚ) : Nat :=
  invCDFGo (u * weights.sum) 0 0 weights

/-- Modelled from the spec: the observable result of `sample_discrete` as a
function of the densities and of the process-global RNG state, the latter
abstracted by the stream of uniforms `np.random.rand` yields on sampler.py
line 52 (one per row). -/
def sample_discrete_model (densities : List (List ℚ)) (rng : Nat → ℚ) :
    List Nat :=
  List.zipWith sampleRowIdx densities ((List.range densities.length).map rng)

/-! ## Spec-side restatements (for refinement claims)

These follow the spec's wording, to be compared against the definitions
above, which follow the source. -/

/-- Spec section 4.1, fixed-block variant: `x = 32` if the device exposes
at least 1024 max threads-per-block, else `x = 16`. -/
def spec_fixed_x (limits : DeviceInfo) : Nat :=
  if 1024 ≤ limits.max_block_threads then 32 else 16

/-- Spec section 4.1, fixed-block variant: shared-memory requirement
`4 * ((x+1)*y + 2*y)` bytes with `y = 16`. -/
def spec_fixed_shared (limits : DeviceInfo) : Nat :=
  4 * ((spec_fixed_x limits + 1) * 16 + 2 * 16)

/-- Spec section 4.1, adaptive variant: `x` is 16 on the oldest compute tier
and 32 otherwise. -/
def spec_x (limits : DeviceInfo) : Nat :=
  if limits.compute_cap_major = 1 then 16 else 32

/-- Spec section 4.1: `stride` is `k` rounded up to the next odd number. -/
def spec_stride (k : Nat) : Nat :=
  if k % 2 = 1 then k else k + 1

/-- Spec section 4.1, adaptive variant feasibility predicate at `(x, y)`:
`4*(x*stride + x) < 0.8 * maxSharedMemoryBytes`,
`perThreadRegisters * x * y < 0.9 * maxRegistersPerBlock`, and
`x*y ≤ 0.5 * maxThreadsPerBlock`. -/
def spec_feasible (limits : DeviceInfo) (regs k y : Nat) : Prop :=
  ((4 * (spec_x limits * spec_stride k + spec_x limits) : Nat) : ℚ) <
      8 / 10 * (limits.shared_mem : ℚ) ∧
  ((regs * spec_x limits * y : Nat) : ℚ) < 9 / 10 * (limits.max_registers : ℚ) ∧
  ((spec_x limits * y : Nat) : ℚ) ≤ 5 / 10 * (limits.max_block_threads : ℚ)

/-! ## Helper lemmas -/

/-- A grid of `n / x + 1` blocks, each covering `x` rows, covers all `n` rows. -/
theorem grid_covers (n x : Nat) (hx : 0 < x) : n ≤ (n / x + 1) * x := by
  have hmod : n % x < x := Nat.mod_lt n hx
  have hdm : x * (n / x) + n % x = n := Nat.div_add_mod n x
  calc n = x * (n / x) + n % x := hdm.symm
    _ ≤ x * (n / x) + x := by omega
    _ = (n / x + 1) * x := by ring

/-- Unpacking the adaptive feasibility predicate. -/
theorem sfm_config_ok_iff (xdim ydim stride func_regs : Nat)
    (max_regs max_smem : ℚ) (max_threads : Nat) :
    sfm_config_ok xdim ydim stride func_regs max_regs max_smem max_threads = true ↔
      (((4 * (xdim * stride + 1 * xdim) : Nat) : ℚ) < max_smem ∧
        ((func_regs * ydim * xdim : Nat) : ℚ) < max_regs) ∧
      xdim * ydim ≤ max_threads := by
  simp [sfm_config_ok]

/-- A feasible `ydim` is at most `max_threads` (given a positive `xdim`). -/
theorem sfm_config_ok_y_le (xdim ydim stride func_regs : Nat)
    (max_regs max_smem : ℚ) (max_threads : Nat) (hx : 0 < xdim)
    (h : sfm_config_ok xdim ydim stride func_regs max_regs max_smem max_threads = true) :
    ydim ≤ max_threads := by
  have h3 := ((sfm_config_ok_iff _ _ _ _ _ _ _).mp h).2
  have h1 : 1 * ydim ≤ xdim * ydim := Nat.mul_le_mul hx (Nat.le_refl ydim)
  omega

/-- The feasibility predicate is monotonically non-increasing in `ydim`. -/
theorem sfm_config_ok_mono (xdim stride func_regs : Nat)
    (max_regs max_smem : ℚ) (max_threads : Nat) {y1 y2 : Nat} (h12 : y1 ≤ y2)
    (h : sfm_config_ok xdim y2 stride func_regs max_regs max_smem max_threads = true) :
    sfm_config_ok xdim y1 stride func_regs max_regs max_smem max_threads = true := by
  rw [sfm_config_ok_iff] at h ⊢
  obtain ⟨⟨h1, h2⟩, h3⟩ := h
  refine ⟨⟨h1, lt_of_le_of_lt ?_ h2⟩, Nat.le_trans ?_ h3⟩
  · exact_mod_cast Nat.mul_le_mul (Nat.mul_le_mul (Nat.le_refl func_regs) h12)
      (Nat.le_refl xdim)
  · exact Nat.mul_le_mul (Nat.le_refl xdim) h12

/-- The while-loop never moves `ydim` down. -/
theorem sfm_search_aux_ge (stride func_regs : Nat) (max_regs max_smem : ℚ)
    (max_threads xdim : Nat) :
    ∀ fuel ydim, ydim ≤
      sfm_search_aux stride func_regs max_regs max_smem max_threads xdim fuel ydim := by
  intro fuel
  induction fuel with
  | zero => intro ydim; simp [sfm_search_aux]
  | succ f ih =>
    intro ydim
    simp only [sfm_search_aux]
    split
    · exact Nat.le_trans (Nat.le_succ ydim) (ih (ydim + 1))
    · exact Nat.le_refl ydim

/-- The while-loop does not run when the predicate already fails. -/
theorem sfm_search_aux_stop (stride func_regs : Nat) (max_regs max_smem : ℚ)
    (max_threads xdim : Nat) (fuel ydim : Nat)
    (h : sfm_config_ok xdim ydim stride func_regs max_regs max_smem max_threads = false) :
    sfm_search_aux stride func_regs max_regs max_smem max_threads xdim fuel ydim = ydim := by
  cases fuel <;> simp [sfm_search_aux, h]

/-- With enough fuel, the predicate fails at the loop's exit value. -/
theorem sfm_search_aux_not_ok (stride func_regs : Nat) (max_regs max_smem : ℚ)
    (max_threads xdim : Nat) (hx : 0 < xdim) :
    ∀ fuel ydim, max_threads + 1 - ydim ≤ fuel →
      sfm_config_ok xdim
        (sfm_search_aux stride func_regs max_regs max_smem max_threads xdim fuel ydim)
        stride func_regs max_regs max_smem max_threads = false := by
  intro fuel
  induction fuel with
  | zero =>
    intro ydim hy
    have hfail :
        sfm_config_ok xdim ydim stride func_regs max_regs max_smem max_threads = false := by
      rcases hok : sfm_config_ok xdim ydim stride func_regs max_regs max_smem max_threads with _ | _
      · rfl
      · have := sfm_config_ok_y_le xdim ydim stride func_regs max_regs max_smem
          max_threads hx hok
        omega
    simpa [sfm_search_aux] using hfail
  | succ f ih =>
    intro ydim hy
    simp only [sfm_search_aux]
    split
    · rename_i hok
      have hley := sfm_config_ok_y_le xdim ydim stride func_regs max_regs max_smem
        max_threads hx hok
      exact ih (ydim + 1) (by omega)
    · rename_i hok
      rwa [Bool.not_eq_true] at hok

/-- With enough fuel, if the predicate holds at the start then it still
holds one step below the loop's exit value, and the loop advanced. -/
theorem sfm_search_aux_ok_start (stride func_regs : Nat) (max_regs max_smem : ℚ)
    (max_threads xdim : Nat) (hx : 0 < xdim) :
    ∀ fuel ydim, max_threads + 1 - ydim ≤ fuel →
      sfm_config_ok xdim ydim stride func_regs max_regs max_smem max_threads = true →
      sfm_config_ok xdim
          (sfm_search_aux stride func_regs max_regs max_smem max_threads xdim fuel ydim - 1)
          stride func_regs max_regs max_smem max_threads = true ∧
        ydim + 1 ≤
          sfm_search_aux stride func_regs max_regs max_smem max_threads xdim fuel ydim := by
  intro fuel
  induction fuel with
  | zero =>
    intro ydim hy hok
    have := sfm_config_ok_y_le xdim ydim stride func_regs max_regs max_smem
      max_threads hx hok
    omega
  | succ f ih =>
    intro ydim hy hok
    have hley := sfm_config_ok_y_le xdim ydim stride func_regs max_regs max_smem
      max_threads hx hok
    simp only [sfm_search_aux, hok, if_true]
    rcases hok2 : sfm_config_ok xdim (ydim + 1) stride func_regs max_regs max_smem
        max_threads with _ | _
    · rw [sfm_search_aux_stop stride func_regs max_regs max_smem max_threads xdim f
        (ydim + 1) hok2]
      simpa using hok
    · obtain ⟨ha, hb⟩ := ih (ydim + 1) (by omega) hok2
      exact ⟨ha, by omega⟩

/-- The loop exit value is at least its starting value. -/
theorem sfm_search_ge (stride func_regs : Nat) (max_regs max_smem : ℚ)
    (max_threads xdim ydim : Nat) :
    ydim ≤ sfm_search stride func_regs max_regs max_smem max_threads xdim ydim :=
  sfm_search_aux_ge stride func_regs max_regs max_smem max_threads xdim _ ydim

/-- The predicate fails at the loop exit value. -/
theorem sfm_search_not_ok (stride func_regs : Nat) (max_regs max_smem : ℚ)
    (max_threads xdim : Nat) (hx : 0 < xdim) (ydim : Nat) :
    sfm_config_ok xdim
      (sfm_search stride func_regs max_regs max_smem max_threads xdim ydim)
      stride func_regs max_regs max_smem max_threads = false :=
  sfm_search_aux_not_ok stride func_regs max_regs max_smem max_threads xdim hx _
    ydim (Nat.le_refl _)

/-- If the predicate holds at the start, it still holds right below the loop
exit value, and the loop advanced at least one step. -/
theorem sfm_search_ok_start (stride func_regs : Nat) (max_regs max_smem : ℚ)
    (max_threads xdim : Nat) (hx : 0 < xdim) (ydim : Nat)
    (hok : sfm_config_ok xdim ydim stride func_regs max_regs max_smem max_threads = true) :
    sfm_config_ok xdim
        (sfm_search stride func_regs max_regs max_smem max_threads xdim ydim - 1)
        stride func_regs max_regs max_smem max_threads = true ∧
      ydim + 1 ≤ sfm_search stride func_regs max_regs max_smem max_threads xdim ydim :=
  sfm_search_aux_ok_start stride func_regs max_regs max_smem max_threads xdim hx _
    ydim (Nat.le_refl _) hok

/-- The `xdim` chosen by `_tune_sfm` is positive. -/
theorem sfm_xdim_pos (info : DeviceInfo) : 0 < sfm_xdim info := by
  unfold sfm_xdim
  split <;> norm_num

/-- The block `y` dimension returned by `_tune_sfm`, as the loop exit value
minus one. -/
theorem _tune_sfm_ydim (info : DeviceInfo) (n stride func_regs : Nat) :
    (_tune_sfm info n stride func_regs).2.2.1 =
      sfm_search stride func_regs (tune_max_regs info) (tune_max_smem info)
        (tune_max_threads info) (sfm_xdim info) 2 - 1 := rfl

/-- The grid of `_tune_sfm` is `int(n/xdim) + 1` blocks. -/
theorem _tune_sfm_grid (info : DeviceInfo) (n stride func_regs : Nat) :
    (_tune_sfm info n stride func_regs).1.1 = n / sfm_xdim info + 1 := rfl

/-- The block `x` dimension of `_tune_sfm` is `sfm_xdim`. -/
theorem _tune_sfm_xdim (info : DeviceInfo) (n stride func_regs : Nat) :
    (_tune_sfm info n stride func_regs).2.1 = sfm_xdim info := rfl

/-- The source's `x_block_dim` branch agrees with the spec's wording. -/
theorem x_block_dim_eq_spec (info : DeviceInfo) :
    x_block_dim info = spec_fixed_x info := by
  unfold x_block_dim spec_fixed_x
  rcases Nat.lt_or_ge info.max_block_threads 1024 with h | h
  · rw [if_pos h, if_neg (by omega)]
  · rw [if_neg (by omega), if_pos h]

/-- The source's stride adjustment agrees with the spec's wording. -/
theorem old_stride_eq_spec (k : Nat) : old_stride k = spec_stride k := by
  unfold old_stride spec_stride
  rcases Nat.mod_two_eq_zero_or_one k with h | h <;> simp [h]

/-- Comparing an integer against half of an integer: the exact rational
comparison agrees with the truncating one. -/
theorem le_half_iff (a t : Nat) : ((a : ℚ) ≤ 5 / 10 * (t : ℚ)) ↔ a ≤ t / 2 := by
  rw [Nat.le_div_iff_mul_le (by norm_num : 0 < 2)]
  constructor
  · intro h
    have h2 : ((a * 2 : Nat) : ℚ) ≤ (t : ℚ) := by push_cast; linarith
    exact_mod_cast h2
  · intro h
    have h2 : ((a * 2 : Nat) : ℚ) ≤ (t : ℚ) := by exact_mod_cast h
    push_cast at h2
    linarith

/-- `sfm_search` satisfies the defining equation of the source's while loop:
it is the loop exit value, and the bound inside `sfm_search_aux` is never
what stops the recursion. -/
theorem sfm_search_eq (stride func_regs : Nat) (max_regs max_smem : ℚ)
    (max_threads xdim : Nat) (hx : 0 < xdim) (ydim : Nat) :
    sfm_search stride func_regs max_regs max_smem max_threads xdim ydim =
      if sfm_config_ok xdim ydim stride func_regs max_regs max_smem max_threads then
        sfm_search stride func_regs max_regs max_smem max_threads xdim (ydim + 1)
      else ydim := by
  unfold sfm_search
  rcases hc : max_threads + 1 - ydim with _ | f
  · have hfail :
        sfm_config_ok xdim ydim stride func_regs max_regs max_smem max_threads = false := by
      rcases hok : sfm_config_ok xdim ydim stride func_regs max_regs max_smem
          max_threads with _ | _
      · rfl
      · have := sfm_config_ok_y_le xdim ydim stride func_regs max_regs max_smem
          max_threads hx hok
        omega
    rw [sfm_search_aux_stop stride func_regs max_regs max_smem max_threads xdim 0
      ydim hfail, hfail]
    simp
  · simp only [sfm_search_aux]
    split
    · rename_i hok
      have := sfm_config_ok_y_le xdim ydim stride func_regs max_regs max_smem
        max_threads hx hok
      have hf : max_threads + 1 - (ydim + 1) = f := by omega
      rw [hf]
    · rfl

/-! ## Claims -/

/-- Claim C1, counterexample: the geometry invariant does not hold for every
device limits descriptor.  On a device exposing only 128 threads per block
(below 1024, so `x_block_dim = 16`), the fixed-block path of
`sample_discrete` requests a `16 * 16 = 256`-thread block, exceeding
`maxThreadsPerBlock`. -/
theorem claim_C1_counterexample :
    ¬ ((block_design ⟨2, 128, 100000, 100000⟩).1 *
        (block_design ⟨2, 128, 100000, 100000⟩).2.1 ≤
      (DeviceInfo.mk 2 128 100000 100000).max_block_threads) := by decide

/-- Claim C1 (amended): row coverage (grid blocks times rows per block is at
least `n`) holds on both planner paths for every device limits descriptor;
the fixed path's thread-count bound holds whenever the device exposes at
least 256 threads per block, its shared-memory request fits whenever the
device offers at least 2240 bytes (the larger of the two possible fixed
requests), and on the adaptive path both the thread-count and the
shared-memory bounds hold whenever the feasibility predicate holds at the
initial `y = 2` — each under its own condition only. -/
theorem claim_C1_amended (info : DeviceInfo) (n stride func_regs : Nat)
    (hn : 1 ≤ n) :
    n ≤ (grid_design n).1 * y_block_dim ∧
    n ≤ (_tune_sfm info n stride func_regs).1.1 * (_tune_sfm info n stride func_regs).2.1 ∧
    (256 ≤ info.max_block_threads →
      x_block_dim info * y_block_dim ≤ info.max_block_threads) ∧
    (2240 ≤ info.shared_mem → shared_mem_request info ≤ info.shared_mem) ∧
    (sfm_config_ok (sfm_xdim info) 2 stride func_regs (tune_max_regs info)
        (tune_max_smem info) (tune_max_threads info) = true →
      (_tune_sfm info n stride func_regs).2.1 *
          (_tune_sfm info n stride func_regs).2.2.1 ≤ info.max_block_threads ∧
      old_shared_mem (_tune_sfm info n stride func_regs).2.1 stride ≤
        info.shared_mem) := by
  have hx := sfm_xdim_pos info
  refine ⟨?_, ?_, ?_, ?_, ?_⟩
  · exact grid_covers n 16 (by norm_num)
  · rw [_tune_sfm_grid, _tune_sfm_xdim]
    exact grid_covers n (sfm_xdim info) hx
  · intro hT
    unfold x_block_dim y_block_dim
    split <;> omega
  · intro hS
    unfold shared_mem_request x_block_dim y_block_dim
    split <;> omega
  · intro h2
    constructor
    · rw [_tune_sfm_xdim, _tune_sfm_ydim]
      obtain ⟨hok, hge⟩ := sfm_search_ok_start stride func_regs (tune_max_regs info)
        (tune_max_smem info) (tune_max_threads info) (sfm_xdim info) hx 2 h2
      have h3 := ((sfm_config_ok_iff _ _ _ _ _ _ _).mp hok).2
      have hhalf : tune_max_threads info ≤ info.max_block_threads :=
        Nat.div_le_self info.max_block_threads 2
      omega
    · rw [_tune_sfm_xdim]
      have h1 := ((sfm_config_ok_iff _ _ _ _ _ _ _).mp h2).1.1
      unfold tune_max_smem at h1
      have hq : ((4 * (sfm_xdim info * stride + 1 * sfm_xdim info) : Nat) : ℚ) <
          ((info.shared_mem : Nat) : ℚ) := by
        have hnn : (0 : ℚ) ≤ (info.shared_mem : ℚ) := by positivity
        nlinarith
      have := le_of_lt (Nat.cast_lt.mp hq)
      unfold old_shared_mem
      omega

/-- Claim C1 witness: the amended statement instantiated on a realistic
device (1024 threads, 48 KiB shared memory, 64 K registers, compute tier 2)
and the shape `n = 100`, `stride = 5`, `func_regs = 10`. -/
theorem claim_C1_witness :
    1 ≤ 100 ∧
    (100 ≤ (grid_design 100).1 * y_block_dim ∧
      100 ≤ (_tune_sfm ⟨2, 1024, 49152, 65536⟩ 100 5 10).1.1 *
        (_tune_sfm ⟨2, 1024, 49152, 65536⟩ 100 5 10).2.1 ∧
      (256 ≤ 1024 → x_block_dim ⟨2, 1024, 49152, 65536⟩ * y_block_dim ≤ 1024) ∧
      (2240 ≤ 49152 → shared_mem_request ⟨2, 1024, 49152, 65536⟩ ≤ 49152) ∧
      (sfm_config_ok (sfm_xdim ⟨2, 1024, 49152, 65536⟩) 2 5 10
          (tune_max_regs ⟨2, 1024, 49152, 65536⟩)
          (tune_max_smem ⟨2, 1024, 49152, 65536⟩)
          (tune_max_threads ⟨2, 1024, 49152, 65536⟩) = true →
        (_tune_sfm ⟨2, 1024, 49152, 65536⟩ 100 5 10).2.1 *
            (_tune_sfm ⟨2, 1024, 49152, 65536⟩ 100 5 10).2.2.1 ≤ 1024 ∧
        old_shared_mem (_tune_sfm ⟨2, 1024, 49152, 65536⟩ 100 5 10).2.1 5 ≤ 49152)) :=
  ⟨by norm_num, claim_C1_amended ⟨2, 1024, 49152, 65536⟩ 100 5 10 (by norm_num)⟩

/-- Claim C2, counterexample: the returned block `y` dimension is not always
a value at which the feasibility predicate holds.  On a device with only 10
bytes of shared memory the predicate fails already at `y = 2` (its
shared-memory conjunct does not depend on `y`), yet `_tune_sfm` returns
`ydim = 1`, where the predicate fails as well. -/
theorem claim_C2_counterexample :
    (_tune_sfm ⟨2, 1024, 10, 1000⟩ 10 5 1).2.2.1 = 1 ∧
    sfm_config_ok (sfm_xdim ⟨2, 1024, 10, 1000⟩) 1 5 1
      (tune_max_regs ⟨2, 1024, 10, 1000⟩) (tune_max_smem ⟨2, 1024, 10, 1000⟩)
      (tune_max_threads ⟨2, 1024, 10, 1000⟩) = false := by
  have hfail2 : sfm_config_ok (sfm_xdim ⟨2, 1024, 10, 1000⟩) 2 5 1
      (tune_max_regs ⟨2, 1024, 10, 1000⟩) (tune_max_smem ⟨2, 1024, 10, 1000⟩)
      (tune_max_threads ⟨2, 1024, 10, 1000⟩) = false := by
    simp only [sfm_config_ok, sfm_xdim, tune_max_regs, tune_max_smem, tune_max_threads]
    norm_num
  constructor
  · rw [_tune_sfm_ydim]
    unfold sfm_search
    rw [sfm_search_aux_stop _ _ _ _ _ _ _ _ hfail2]
  · simp only [sfm_config_ok, sfm_xdim, tune_max_regs, tune_max_smem, tune_max_threads]
    norm_num

/-- Claim C2 (amended): whenever the feasibility predicate holds at the
initial `y = 2`, the block `y` dimension returned by `_tune_sfm` is the
largest feasible value: the predicate holds at it, fails at its successor,
and dominates every feasible `y` (the predicate being monotonically
non-increasing in `y`, the linear increment-then-backoff search returns the
maximum).  When the predicate already fails at `y = 2`, the planner instead
returns `y = 1` without checking it. -/
theorem claim_C2_amended (info : DeviceInfo) (n stride func_regs : Nat)
    (h2 : sfm_config_ok (sfm_xdim info) 2 stride func_regs (tune_max_regs info)
      (tune_max_smem info) (tune_max_threads info) = true) :
    sfm_config_ok (sfm_xdim info) (_tune_sfm info n stride func_regs).2.2.1 stride func_regs
      (tune_max_regs info) (tune_max_smem info) (tune_max_threads info) = true ∧
    sfm_config_ok (sfm_xdim info) ((_tune_sfm info n stride func_regs).2.2.1 + 1) stride
      func_regs (tune_max_regs info) (tune_max_smem info) (tune_max_threads info) = false ∧
    ∀ y, sfm_config_ok (sfm_xdim info) y stride func_regs (tune_max_regs info)
      (tune_max_smem info) (tune_max_threads info) = true →
        y ≤ (_tune_sfm info n stride func_regs).2.2.1 := by
  have hx := sfm_xdim_pos info
  rw [_tune_sfm_ydim]
  obtain ⟨hok, hge⟩ := sfm_search_ok_start stride func_regs (tune_max_regs info)
    (tune_max_smem info) (tune_max_threads info) (sfm_xdim info) hx 2 h2
  have hnot := sfm_search_not_ok stride func_regs (tune_max_regs info)
    (tune_max_smem info) (tune_max_threads info) (sfm_xdim info) hx 2
  have hplus : sfm_search stride func_regs (tune_max_regs info) (tune_max_smem info)
      (tune_max_threads info) (sfm_xdim info) 2 - 1 + 1 =
      sfm_search stride func_regs (tune_max_regs info) (tune_max_smem info)
        (tune_max_threads info) (sfm_xdim info) 2 := by omega
  refine ⟨hok, by rw [hplus]; exact hnot, ?_⟩
  intro y hy
  by_contra hcon
  push_neg at hcon
  have hSy : sfm_search stride func_regs (tune_max_regs info) (tune_max_smem info)
      (tune_max_threads info) (sfm_xdim info) 2 ≤ y := by omega
  have hokS := sfm_config_ok_mono (sfm_xdim info) stride func_regs (tune_max_regs info)
    (tune_max_smem info) (tune_max_threads info) hSy hy
  rw [hnot] at hokS
  exact Bool.false_ne_true hokS

/-- Claim C2 witness: the amended statement instantiated on a compute-tier-1
device with 512 threads per block, 16 KiB shared memory and 16 K registers,
`stride = 7`, `func_regs = 8`, `n = 50`. -/
theorem claim_C2_witness :
    sfm_config_ok (sfm_xdim ⟨1, 512, 16384, 16384⟩) 2 7 8
      (tune_max_regs ⟨1, 512, 16384, 16384⟩) (tune_max_smem ⟨1, 512, 16384, 16384⟩)
      (tune_max_threads ⟨1, 512, 16384, 16384⟩) = true ∧
    (sfm_config_ok (sfm_xdim ⟨1, 512, 16384, 16384⟩)
        (_tune_sfm ⟨1, 512, 16384, 16384⟩ 50 7 8).2.2.1 7 8
        (tune_max_regs ⟨1, 512, 16384, 16384⟩) (tune_max_smem ⟨1, 512, 16384, 16384⟩)
        (tune_max_threads ⟨1, 512, 16384, 16384⟩) = true ∧
      sfm_config_ok (sfm_xdim ⟨1, 512, 16384, 16384⟩)
        ((_tune_sfm ⟨1, 512, 16384, 16384⟩ 50 7 8).2.2.1 + 1) 7 8
        (tune_max_regs ⟨1, 512, 16384, 16384⟩) (tune_max_smem ⟨1, 512, 16384, 16384⟩)
        (tune_max_threads ⟨1, 512, 16384, 16384⟩) = false ∧
      ∀ y, sfm_config_ok (sfm_xdim ⟨1, 512, 16384, 16384⟩) y 7 8
        (tune_max_regs ⟨1, 512, 16384, 16384⟩) (tune_max_smem ⟨1, 512, 16384, 16384⟩)
        (tune_max_threads ⟨1, 512, 16384, 16384⟩) = true →
          y ≤ (_tune_sfm ⟨1, 512, 16384, 16384⟩ 50 7 8).2.2.1) := by
  have hok : sfm_config_ok (sfm_xdim ⟨1, 512, 16384, 16384⟩) 2 7 8
      (tune_max_regs ⟨1, 512, 16384, 16384⟩) (tune_max_smem ⟨1, 512, 16384, 16384⟩)
      (tune_max_threads ⟨1, 512, 16384, 16384⟩) = true := by
    simp only [sfm_config_ok, sfm_xdim, tune_max_regs, tune_max_smem, tune_max_threads,
      Bool.and_eq_true, decide_eq_true_eq]
    norm_num
  exact ⟨hok, claim_C2_amended ⟨1, 512, 16384, 16384⟩ 50 7 8 hok⟩

/-- Claim C3, counterexample: the fixed-block grid size is not
`ceil(n / y) + 1`.  At `n = 17` the source computes `int(17/16) + 1 = 2`
blocks, while `ceil(17/16) + 1 = 3`. -/
theorem claim_C3_counterexample : (grid_design 17).1 ≠ (17 + 16 - 1) / 16 + 1 := by decide

/-- Claim C3 (amended): the grid x-dimension equals `floor(n/y) + 1` in the
fixed-block variant (`y = 16`) and `floor(n/x) + 1` in the adaptive variant;
this coincides with `ceil(n/16) + 1` exactly when 16 divides `n`, and equals
`ceil(n/16)` (without the extra block) otherwise. -/
theorem claim_C3_amended (info : DeviceInfo) (n stride func_regs : Nat) (hn : 1 ≤ n) :
    (grid_design n).1 = n / 16 + 1 ∧
    (_tune_sfm info n stride func_regs).1.1 = n / sfm_xdim info + 1 ∧
    (16 ∣ n → (grid_design n).1 = (n + 16 - 1) / 16 + 1) ∧
    (¬ 16 ∣ n → (grid_design n).1 = (n + 16 - 1) / 16) := by
  refine ⟨rfl, _tune_sfm_grid info n stride func_regs, ?_, ?_⟩
  · intro h
    show n / 16 + 1 = (n + 16 - 1) / 16 + 1
    omega
  · intro h
    show n / 16 + 1 = (n + 16 - 1) / 16
    omega

/-- Claim C3 witness: the amended statement at `n = 17` on a tier-2 device. -/
theorem claim_C3_witness :
    1 ≤ 17 ∧
    ((grid_design 17).1 = 17 / 16 + 1 ∧
      (_tune_sfm ⟨2, 1024, 49152, 65536⟩ 17 5 10).1.1 =
        17 / sfm_xdim ⟨2, 1024, 49152, 65536⟩ + 1 ∧
      (16 ∣ 17 → (grid_design 17).1 = (17 + 16 - 1) / 16 + 1) ∧
      (¬ 16 ∣ 17 → (grid_design 17).1 = (17 + 16 - 1) / 16)) :=
  ⟨by norm_num, claim_C3_amended ⟨2, 1024, 49152, 65536⟩ 17 5 10 (by norm_num)⟩

/-- Claim C4: in the fixed-block variant, for every device limits descriptor
and every shape, the block x-dimension is 32 when the device exposes at
least 1024 threads per block and 16 otherwise, the block y-dimension is
always 16, and the shared-memory request is exactly `4*((x+1)*y + 2*y)`
bytes — the source agrees with the spec's formulas (the shape is not
consulted at all). -/
theorem claim_C4 (info : DeviceInfo) (n k : Nat) :
    x_block_dim info = spec_fixed_x info ∧ y_block_dim = 16 ∧
    shared_mem_request info = spec_fixed_shared info :=
  ⟨x_block_dim_eq_spec info, rfl, by
    unfold shared_mem_request spec_fixed_shared y_block_dim
    rw [x_block_dim_eq_spec]⟩

/-- Claim C5: the adaptive variant's feasibility predicate is exactly the
spec's conjunction — `4*(x*stride + x) < 0.8 * maxSharedMemoryBytes`,
`perThreadRegisters * x * y < 0.9 * maxRegistersPerBlock`, and
`x*y ≤ 0.5 * maxThreadsPerBlock` — with `x = 16` on the oldest compute tier
and 32 otherwise, and `stride` equal to `k` rounded up to the next odd
number, once the source's truncation `int(0.5 * maxThreadsPerBlock)` is
read exactly (an integer `x*y` is at most `0.5*T` iff it is at most
`T div 2`). -/
theorem claim_C5 (limits : DeviceInfo) (regs k y : Nat) :
    spec_feasible limits regs k y ↔
      sfm_config_ok (sfm_xdim limits) y (old_stride k) regs (tune_max_regs limits)
        (tune_max_smem limits) (tune_max_threads limits) = true := by
  rw [sfm_config_ok_iff, old_stride_eq_spec]
  have hxeq : sfm_xdim limits = spec_x limits := rfl
  rw [hxeq]
  unfold spec_feasible tune_max_regs tune_max_smem tune_max_threads
  rw [le_half_iff]
  constructor
  · rintro ⟨h1, h2, h3⟩
    refine ⟨⟨?_, ?_⟩, h3⟩
    · push_cast at h1 ⊢
      linarith
    · push_cast at h2 ⊢
      linarith
  · rintro ⟨⟨h1, h2⟩, h3⟩
    refine ⟨?_, ?_, h3⟩
    · push_cast at h1 ⊢
      linarith
    · push_cast at h2 ⊢
      linarith

/-- Claim C6: the two entry points do not both produce int32 output.
`sample_discrete` allocates its output as int32 (line 53), but
`sample_discrete_old` allocates (and returns) its output as float32
(line 130), contradicting its own docstring, which promises
`dtype = int32` (lines 96-98). -/
theorem claim_C6_output_dtype :
    gpu_dest_dtype = NpDType.int32 ∧ gpu_dest_dtype_old = NpDType.float32 ∧
      gpu_dest_dtype_old ≠ NpDType.int32 := by decide

/-- Claim C7, counterexample: a malformed input with `n = 0 < 1` does not
raise any error before the kernel launch — the facade performs no shape
validation, and the launch is attempted. -/
theorem claim_C7_counterexample :
    (sample_discrete_trace [0, 5] true false).preLaunchError = false ∧
    (sample_discrete_trace [0, 5] true false).launchAttempted = true := by decide

/-- Claim C7 (amended): the only malformed input that aborts before a kernel
launch is a densities array that is not exactly two-dimensional (the tuple
unpacking `n, k = densities.shape` raises); whenever the array is
two-dimensional, no validation of `n ≥ 1`, `k ≥ 1` or value finiteness is
performed and the facade always proceeds to a kernel launch. -/
theorem claim_C7_amended (shape : List Nat) (launchOk rg : Bool) :
    (shape.length = 2 →
      (sample_discrete_trace shape launchOk rg).preLaunchError = false ∧
      (sample_discrete_trace shape launchOk rg).launchAttempted = true) ∧
    (shape.length ≠ 2 →
      (sample_discrete_trace shape launchOk rg).preLaunchError = true ∧
      (sample_discrete_trace shape launchOk rg).launchAttempted = false) := by
  rcases shape with _ | ⟨a, _ | ⟨b, _ | ⟨c, t⟩⟩⟩ <;>
    cases launchOk <;> cases rg <;>
      simp [sample_discrete_trace]

/-- Claim C8, counterexample: when the kernel launch fails, the per-call
uniform-draws buffer is not released before the call returns — the launch
exception propagates before `gpu_random.gpudata.free()` is reached. -/
theorem claim_C8_counterexample :
    (sample_discrete_trace [5, 3] false false).randomFreed = false ∧
    (sample_discrete_trace [5, 3] false false).raised = true := by decide

/-- Claim C8 (amended): on a successful launch the draws buffer is always
released, and the output buffer is released exactly when the result is
copied out to the host; but on a failing launch neither the draws buffer nor
the output buffer is released — the exception propagates before the free
calls (both in `sample_discrete` and in `sample_discrete_old`). -/
theorem claim_C8_amended (n k : Nat) (rg : Bool) :
    (sample_discrete_trace [n, k] true rg).randomFreed = true ∧
    (sample_discrete_trace [n, k] true rg).destFreed = !rg ∧
    (sample_discrete_trace [n, k] false rg).randomFreed = false ∧
    (sample_discrete_trace [n, k] false rg).destFreed = false ∧
    (sample_discrete_old_trace [n, k] true rg).randomFreed = true ∧
    (sample_discrete_old_trace [n, k] true rg).destFreed = !rg ∧
    (sample_discrete_old_trace [n, k] false rg).randomFreed = false ∧
    (sample_discrete_old_trace [n, k] false rg).destFreed = false := by
  cases rg <;> simp [sample_discrete_trace, sample_discrete_old_trace]

/-- Claim C9: for every device descriptor, `n`, `stride` and per-thread
register count, the adaptive search terminates (the embedding is a total
function: the feasibility predicate fails once `ydim` exceeds the thread
budget) and the block y-dimension `_tune_sfm` returns is at least 1, even
when the predicate already fails at the starting `ydim = 2`. -/
theorem claim_C9 (info : DeviceInfo) (n stride func_regs : Nat) :
    1 ≤ (_tune_sfm info n stride func_regs).2.2.1 := by
  rw [_tune_sfm_ydim]
  have h := sfm_search_ge stride func_regs (tune_max_regs info) (tune_max_smem info)
    (tune_max_threads info) (sfm_xdim info) 2
  omega

/-- Claim C10: the result of `sample_discrete` is not a function of its
arguments alone — the per-row uniform draws come from the process-global
NumPy generator (line 52), so two calls with identical arguments but
different global RNG states can return different index vectors.  Witnessed
on the single-row density matrix `[[1, 1]]` by RNG states whose next draws
are `0` and `3/4`. -/
theorem claim_C10 :
    ∃ s1 s2 : Nat → ℚ,
      sample_discrete_model [[1, 1]] s1 ≠ sample_discrete_model [[1, 1]] s2 := by
  refine ⟨fun _ => 0, fun _ => 3 / 4, ?_⟩
  simp [sample_discrete_model, sampleRowIdx, invCDFGo, List.range_succ]
  norm_num
